import Mathlib

/-!
Verification of the mortgage-dashboard core (src/app.py) against its
natural-language specification.

The embedding uses exact rationals (ℚ) for the real-valued quantities of the
Python source.  The payment function `monthly_payment` mirrors lines 121-161
of `app.py`; since Python raises `ZeroDivisionError` when the amortization
denominator `(1+i)**n - 1` is zero, the embedded function returns `Option ℚ`,
with `none` for exactly that failure.  The grid builder mirrors lines
164-179: `np.arange` is embedded by its documented semantics
(`start + k*step` for `0 ≤ k < ⌈(stop-start)/step⌉`, empty when the count is
nonpositive), and `np.round` by round-half-to-even scaled rounding.
-/

/-- One financial scenario (§3 of the spec): the nine scalar inputs of one
payment calculation.  Rate-type fields are fractions (0-1 scale). -/
structure ScenarioInput where
  purchase_price : ℚ
  down_payment : ℚ
  note_rate : ℚ
  term_years : ℕ
  effective_tax_rate : ℚ
  annual_premium : ℚ
  pmi_annual_rate : ℚ
  hoa_monthly : ℚ
  flood_annual_premium : ℚ
deriving DecidableEq, Repr

/-- Embedding of `monthly_payment` (app.py lines 121-161).  Python float
division by zero raises `ZeroDivisionError`; the `(1+i)**n - 1 = 0` guard
returns `none` in exactly that case, otherwise the value of line 161.
The `verbose` parameter is accepted (line 130) and, as in the source body,
never read. -/
def monthly_payment (purchase_price down_payment note_rate : ℚ)
    (term_years : ℕ) (effective_tax_rate annual_premium pmi_annual_rate
    hoa_monthly flood_annual_premium : ℚ) (verbose : Bool := false) :
    Option ℚ :=
  let L_base := purchase_price - down_payment
  let i := note_rate / 12
  let n := term_years * 12
  if (1 + i) ^ n - 1 = 0 then none
  else
    let P_and_I := L_base * (i * (1 + i) ^ n) / ((1 + i) ^ n - 1)
    let taxes_monthly := purchase_price * effective_tax_rate / 12
    let hoi_monthly := annual_premium / 12
    let pmi_monthly :=
      if down_payment < 0.20 * purchase_price
      then L_base * pmi_annual_rate / 12 else 0
    let flood_monthly := flood_annual_premium / 12
    some (P_and_I + taxes_monthly + hoi_monthly + pmi_monthly + hoa_monthly
      + flood_monthly)

/-- The spec's `compute(scenario) -> real` surface (§4.1, §6): apply
`monthly_payment` to the scenario's fields. -/
def compute (s : ScenarioInput) : Option ℚ :=
  monthly_payment s.purchase_price s.down_payment s.note_rate s.term_years
    s.effective_tax_rate s.annual_premium s.pmi_annual_rate s.hoa_monthly
    s.flood_annual_premium false

/-- Principal-and-interest component (app.py line 152):
`L * (i*(1+i)^n) / ((1+i)^n - 1)` with `L = purchase_price - down_payment`,
`i = note_rate/12`, `n = term_years*12`. -/
def P_and_I (s : ScenarioInput) : ℚ :=
  (s.purchase_price - s.down_payment) *
    (s.note_rate / 12 * (1 + s.note_rate / 12) ^ (s.term_years * 12)) /
    ((1 + s.note_rate / 12) ^ (s.term_years * 12) - 1)

/-- Monthly property taxes (app.py line 155). -/
def taxes_monthly (s : ScenarioInput) : ℚ :=
  s.purchase_price * s.effective_tax_rate / 12

/-- Monthly homeowners insurance (app.py line 156). -/
def hoi_monthly (s : ScenarioInput) : ℚ := s.annual_premium / 12

/-- Monthly PMI (app.py line 157): charged on the loan principal iff the
down payment is strictly below 20% of the purchase price. -/
def pmi_monthly (purchase_price down_payment pmi_annual_rate : ℚ) : ℚ :=
  if down_payment < 0.20 * purchase_price
  then (purchase_price - down_payment) * pmi_annual_rate / 12 else 0

/-- Monthly flood insurance (app.py line 158). -/
def flood_monthly (s : ScenarioInput) : ℚ := s.flood_annual_premium / 12

/-- The six grid-range scalars (§3 GridSpec): integer price bounds/step as in
the source sliders, rate bounds/step in fractional (0-1) units
(post-conversion, §3 invariant; the source divides its percent sliders by 100
at line 165 before they reach the range generator). -/
structure GridSpec where
  price_min : ℤ
  price_max : ℤ
  price_step : ℤ
  rate_min : ℚ
  rate_max : ℚ
  rate_step : ℚ
deriving DecidableEq, Repr

/-- Embedding of `np.arange(start, stop, step)` on rationals, by its
documented semantics: the values `start + k*step` for
`0 ≤ k < ⌈(stop - start)/step⌉`, empty when that count is nonpositive. -/
def arange (start stop step : ℚ) : List ℚ :=
  (List.range (⌈(stop - start) / step⌉.toNat)).map
    fun k : ℕ => start + (k : ℚ) * step

/-- Embedding of `np.arange(start, stop, step, dtype=int)`: same count
semantics, with exact integer values. -/
def arangeInt (start stop step : ℤ) : List ℤ :=
  (List.range (⌈((stop - start : ℤ) : ℚ) / (step : ℚ)⌉.toNat)).map
    fun k : ℕ => start + (k : ℤ) * step

/-- Round-half-to-even to the nearest integer, as `np.round` does. -/
def roundHalfEven (q : ℚ) : ℤ :=
  if q - ⌊q⌋ < 1 / 2 then ⌊q⌋
  else if 1 / 2 < q - ⌊q⌋ then ⌊q⌋ + 1
  else if 2 ∣ ⌊q⌋ then ⌊q⌋ else ⌊q⌋ + 1

/-- Embedding of `np.round(q, decimals)`: scaled round-half-to-even. -/
def np_round (q : ℚ) (decimals : ℕ) : ℚ :=
  roundHalfEven (q * 10 ^ decimals) / 10 ^ decimals

/-- The price axis (app.py line 164):
`np.arange(price_min, price_max + 1, price_step, dtype=int)`. -/
def prices (g : GridSpec) : List ℤ :=
  arangeInt g.price_min (g.price_max + 1) g.price_step

/-- The rate axis (app.py line 165):
`np.round(np.arange(rate_min/100, rate_max/100 + 1e-12, rate_step/100), 4)`,
written here over the already-fractional `GridSpec` fields. -/
def rates (g : GridSpec) : List ℚ :=
  (arange g.rate_min (g.rate_max + 1e-12) g.rate_step).map
    fun r => np_round r 4

/-- The scenario template (§4.2): a `ScenarioInput` minus purchase price and
note rate, which the grid supplies per cell. -/
structure ScenarioTemplate where
  down_payment : ℚ
  term_years : ℕ
  effective_tax_rate : ℚ
  annual_premium : ℚ
  pmi_annual_rate : ℚ
  hoa_monthly : ℚ
  flood_annual_premium : ℚ
deriving DecidableEq, Repr

/-- One cell of the payment matrix (app.py lines 176-178): the
`(interest_rate, purchase_price)` key and the computed payment. -/
structure GridEntry where
  interest_rate : ℚ
  purchase_price : ℤ
  monthly_payment : ℚ
deriving DecidableEq, Repr

/-- The matrix of computed payments (§3 PaymentMatrix), as the list of cells
the loop of app.py lines 168-178 appends. -/
abbrev PaymentMatrix := List GridEntry

/-- The key a cell is indexed by (§3: the (interest_rate, purchase_price)
pair). -/
def GridEntry.key (e : GridEntry) : ℚ × ℤ := (e.interest_rate, e.purchase_price)

/-- Sequence a fallible computation over a list, failing if any element
fails; a Python `for` loop whose body may raise. -/
def mapOption {α β : Type} (f : α → Option β) : List α → Option (List β)
  | [] => some []
  | a :: as => (f a).bind fun b => (mapOption f as).map fun bs => b :: bs

/-- Embedding of the grid fill loop (app.py lines 168-178): for every rate
(outer) and price (inner), call `monthly_payment` with the template's
scalars; an exception in any cell aborts the whole build (`none`). -/
def build (g : GridSpec) (t : ScenarioTemplate) : Option PaymentMatrix :=
  mapOption
    (fun rp =>
      (monthly_payment (rp.2 : ℚ) t.down_payment rp.1 t.term_years
        t.effective_tax_rate t.annual_premium t.pmi_annual_rate
        t.hoa_monthly t.flood_annual_premium false).map
        fun pay => ⟨rp.1, rp.2, pay⟩)
    ((rates g).flatMap fun r => (prices g).map fun p => ((r, p) : ℚ × ℤ))

/-- For a positive periodic rate and at least one payment, the amortization
denominator is positive. -/
lemma amort_denom_pos (i : ℚ) (n : ℕ) (hi : 0 < i) (hn : n ≠ 0) :
    0 < (1 + i) ^ n - 1 :=
  sub_pos.mpr (one_lt_pow₀ (by linarith) hn)

/-- Ceiling of an integer successor quotient: the count formula behind an
inclusive integer `arange` bound. -/
lemma ceil_intCast_succ_div (D s : ℤ) (hs : 0 < s) :
    ⌈((D + 1 : ℤ) : ℚ) / (s : ℚ)⌉ = D / s + 1 := by
  have hs' : (0 : ℚ) < (s : ℚ) := by exact_mod_cast hs
  have e1 : s * (D / s) + D % s = D := Int.ediv_add_emod D s
  have e2 : 0 ≤ D % s := Int.emod_nonneg D hs.ne'
  have e3 : D % s < s := Int.emod_lt_of_pos D hs
  have hql : (D / s) * s ≤ D := by linarith [e1]
  have hqu : D + 1 ≤ (D / s + 1) * s := by nlinarith [e1, e2, e3]
  rw [Int.ceil_eq_iff]
  constructor
  · push_cast
    rw [add_sub_cancel_right, lt_div_iff₀ hs']
    exact_mod_cast lt_of_le_of_lt hql (lt_add_one D)
  · push_cast
    rw [div_le_iff₀ hs']
    exact_mod_cast hqu

/-- The price axis in closed form: `price_min + k * price_step` for
`k = 0, ..., (price_max - price_min) / price_step`. -/
lemma prices_closed_form (g : GridSpec) (h1 : g.price_min ≤ g.price_max)
    (h2 : 0 < g.price_step) :
    prices g =
      (List.range (((g.price_max - g.price_min) / g.price_step).toNat + 1)).map
        fun k : ℕ => g.price_min + (k : ℤ) * g.price_step := by
  have hD : g.price_max + 1 - g.price_min = (g.price_max - g.price_min) + 1 := by
    ring
  have hnn : 0 ≤ (g.price_max - g.price_min) / g.price_step :=
    Int.ediv_nonneg (by omega) h2.le
  have htn : ((g.price_max - g.price_min) / g.price_step + 1).toNat =
      ((g.price_max - g.price_min) / g.price_step).toNat + 1 := by omega
  rw [prices, arangeInt, hD, ceil_intCast_succ_div _ _ h2, htn]

/-- C5: with `price_min ≤ price_max` and a positive step, the price axis is
the ascending arithmetic sequence `price_min, price_min + price_step, ...`,
contains `price_min + k*price_step` exactly when that value is at most
`price_max`, and has length `floor((price_max - price_min)/price_step) + 1`
(`/` is integer floor division of the nonnegative difference). -/
theorem price_axis_spec (g : GridSpec) (h1 : g.price_min ≤ g.price_max)
    (h2 : 0 < g.price_step) :
    prices g =
      (List.range (((g.price_max - g.price_min) / g.price_step).toNat + 1)).map
        (fun k : ℕ => g.price_min + (k : ℤ) * g.price_step) ∧
    (prices g).length = ((g.price_max - g.price_min) / g.price_step).toNat + 1 ∧
    (prices g).Pairwise (· < ·) ∧
    ∀ k : ℕ, g.price_min + (k : ℤ) * g.price_step ≤ g.price_max ↔
      g.price_min + (k : ℤ) * g.price_step ∈ prices g := by
  have hcf := prices_closed_form g h1 h2
  have hnn : 0 ≤ (g.price_max - g.price_min) / g.price_step :=
    Int.ediv_nonneg (by omega) h2.le
  refine ⟨hcf, by rw [hcf]; simp, ?_, ?_⟩
  · rw [hcf]
    refine List.Pairwise.map _ (fun a b hab => ?_)
      (List.pairwise_lt_range _)
    have hab' : (a : ℤ) < (b : ℤ) := by exact_mod_cast hab
    have := mul_lt_mul_of_pos_right hab' h2
    linarith
  · intro k
    constructor
    · intro hk
      have hks : (k : ℤ) * g.price_step ≤ g.price_max - g.price_min := by
        linarith
      have hkd : (k : ℤ) ≤ (g.price_max - g.price_min) / g.price_step :=
        (Int.le_ediv_iff_mul_le h2).mpr hks
      rw [hcf]
      exact List.mem_map.mpr ⟨k, List.mem_range.mpr (by omega), rfl⟩
    · intro hmem
      rw [hcf] at hmem
      obtain ⟨k', hk', heq⟩ := List.mem_map.mp hmem
      have h' : (k' : ℤ) * g.price_step = (k : ℤ) * g.price_step := by
        linarith
      have hkk : (k' : ℤ) = (k : ℤ) := mul_right_cancel₀ h2.ne' h'
      have hk'lt := List.mem_range.mp hk'
      have hkd : (k : ℤ) ≤ (g.price_max - g.price_min) / g.price_step := by
        omega
      have := (Int.le_ediv_iff_mul_le h2).mp hkd
      linarith

/-- C5 witness: the 250000-260000 by 5000 axis has the right closed form and
length 3. -/
theorem price_axis_spec_witness :
    (250000 : ℤ) ≤ 260000 ∧ (0 : ℤ) < 5000 ∧
    (prices (GridSpec.mk 250000 260000 5000 0.04 0.05 0.01)).length =
      (((260000 : ℤ) - 250000) / 5000).toNat + 1 :=
  ⟨by norm_num, by norm_num,
    (price_axis_spec (GridSpec.mk 250000 260000 5000 0.04 0.05 0.01)
      (by norm_num) (by norm_num)).2.1⟩

/-- C1: for a scenario with positive note rate (and a positive term, per the
§3 domain), `compute` succeeds and returns exactly the sum of the
independently computed components: P&I, monthly taxes, homeowners insurance,
PMI, HOA (passed through unchanged), and flood insurance. -/
theorem compute_additivity (s : ScenarioInput) (hr : 0 < s.note_rate)
    (ht : 0 < s.term_years) :
    compute s = some (P_and_I s + taxes_monthly s + hoi_monthly s +
      pmi_monthly s.purchase_price s.down_payment s.pmi_annual_rate +
      s.hoa_monthly + flood_monthly s) := by
  have hd : (1 + s.note_rate / 12) ^ (s.term_years * 12) - 1 ≠ 0 :=
    ne_of_gt (amort_denom_pos _ _ (by linarith) (by omega))
  simp only [compute, monthly_payment, if_neg hd]
  rfl

/-- C1 witness: the spec's §8 concrete scenario has a positive rate and term,
and its payment decomposes into the six components. -/
theorem compute_additivity_witness :
    (0 : ℚ) < (0.04 : ℚ) ∧
    compute ⟨250000, 25000, 0.04, 30, 0.0091, 3120, 0.005, 0, 400⟩ =
      some (P_and_I ⟨250000, 25000, 0.04, 30, 0.0091, 3120, 0.005, 0, 400⟩ +
        taxes_monthly ⟨250000, 25000, 0.04, 30, 0.0091, 3120, 0.005, 0, 400⟩ +
        hoi_monthly ⟨250000, 25000, 0.04, 30, 0.0091, 3120, 0.005, 0, 400⟩ +
        pmi_monthly 250000 25000 0.005 + 0 +
        flood_monthly ⟨250000, 25000, 0.04, 30, 0.0091, 3120, 0.005, 0, 400⟩) :=
  ⟨by norm_num,
   compute_additivity ⟨250000, 25000, 0.04, 30, 0.0091, 3120, 0.005, 0, 400⟩
     (by norm_num) (by norm_num)⟩

/-- C2: the PMI component is `(purchase_price - down_payment) *
pmi_annual_rate / 12` when the down payment is strictly below 20% of the
purchase price and exactly `0` otherwise; at exactly 20% it is `0`, and at
`0.20 * purchase_price - 1` it is strictly positive provided the PMI rate is
positive and the down payment is below the purchase price. -/
theorem pmi_threshold (pp dp r : ℚ) :
    (dp < 0.20 * pp →
      pmi_monthly pp dp r = (pp - dp) * r / 12) ∧
    (¬ dp < 0.20 * pp → pmi_monthly pp dp r = 0) ∧
    pmi_monthly pp (0.20 * pp) r = 0 ∧
    (0 < r → 0.20 * pp - 1 < pp →
      0 < pmi_monthly pp (0.20 * pp - 1) r) := by
  refine ⟨fun h => if_pos h, fun h => if_neg h, if_neg (lt_irrefl _), ?_⟩
  intro hr hdp
  rw [pmi_monthly, if_pos (by linarith)]
  have hL : 0 < pp - (0.20 * pp - 1) := by linarith
  positivity

/-- C2 witness: with a $250,000 price and a 0.5% PMI rate, a $50,000
(exactly 20%) down payment waives PMI and a $49,999 one pays it. -/
theorem pmi_threshold_witness :
    pmi_monthly 250000 (0.20 * 250000) 0.005 = 0 ∧
    0 < pmi_monthly 250000 (0.20 * 250000 - 1) 0.005 ∧
    (49999 : ℚ) < 0.20 * 250000 ∧
    pmi_monthly 250000 49999 0.005 = (250000 - 49999) * 0.005 / 12 :=
  ⟨(pmi_threshold 250000 0 0.005).2.2.1,
   (pmi_threshold 250000 0 0.005).2.2.2 (by norm_num) (by norm_num),
   by norm_num,
   (pmi_threshold 250000 49999 0.005).1 (by norm_num)⟩

/-- C4: at a zero note rate the amortization denominator `(1+i)^n - 1` is
zero, and `compute` fails (the Python source divides by zero); the zero-rate
limit `L / n` is not special-cased. -/
theorem zero_rate_failure (s : ScenarioInput) (h : s.note_rate = 0) :
    (1 + s.note_rate / 12) ^ (s.term_years * 12) - 1 = 0 ∧
    compute s = none := by
  have hz : (1 + s.note_rate / 12) ^ (s.term_years * 12) - 1 = 0 := by
    rw [h]; norm_num
  exact ⟨hz, by simp [compute, monthly_payment, if_pos hz]⟩

/-- C4 witness: the §8 scenario with its rate set to zero makes `compute`
fail. -/
theorem zero_rate_failure_witness :
    (ScenarioInput.mk 250000 25000 0 30 0.0091 3120 0.005 0 400).note_rate
      = 0 ∧
    compute ⟨250000, 25000, 0, 30, 0.0091, 3120, 0.005, 0, 400⟩ = none :=
  ⟨rfl, (zero_rate_failure ⟨250000, 25000, 0, 30, 0.0091, 3120, 0.005, 0, 400⟩
    rfl).2⟩

/-- C10: the `verbose` flag does not interfere with the result:
`monthly_payment` returns the same value with `verbose := true` as with
`verbose := false`, on every input. -/
theorem verbose_noninterference (pp dp r : ℚ) (t : ℕ)
    (tax prem pmi hoa flood : ℚ) :
    monthly_payment pp dp r t tax prem pmi hoa flood true =
      monthly_payment pp dp r t tax prem pmi hoa flood false := rfl

/-- An empty price range: when `price_max < price_min` (with a positive
step) the integer `arange` count is nonpositive, so the price axis is
empty. -/
lemma prices_nil (g : GridSpec) (h : g.price_max < g.price_min)
    (hs : 0 < g.price_step) : prices g = [] := by
  have hnum : ((g.price_max + 1 - g.price_min : ℤ) : ℚ) ≤ 0 := by
    exact_mod_cast (by omega : g.price_max + 1 - g.price_min ≤ (0 : ℤ))
  have hden : (0 : ℚ) ≤ (g.price_step : ℚ) := by exact_mod_cast hs.le
  have h0 : ((g.price_max + 1 - g.price_min : ℤ) : ℚ) / (g.price_step : ℚ) ≤
      ((0 : ℤ) : ℚ) := by
    rw [Int.cast_zero]
    exact div_nonpos_iff.mpr (Or.inr ⟨hnum, hden⟩)
  have hle : ⌈((g.price_max + 1 - g.price_min : ℤ) : ℚ) / (g.price_step : ℚ)⌉
      ≤ 0 := Int.ceil_le.mpr h0
  have ht : (⌈((g.price_max + 1 - g.price_min : ℤ) : ℚ) /
      (g.price_step : ℚ)⌉).toNat = 0 := by omega
  rw [prices, arangeInt, ht]
  rfl

/-- An empty rate range: when the gap `rate_min - rate_max` is at least the
`1e-12` epsilon (with a positive step), the rate `arange` count is
nonpositive, so the rate axis is empty. -/
lemma rates_nil (g : GridSpec) (h : g.rate_max + 1e-12 ≤ g.rate_min)
    (hs : 0 < g.rate_step) : rates g = [] := by
  have hnum : g.rate_max + 1e-12 - g.rate_min ≤ 0 := by linarith
  have h0 : (g.rate_max + 1e-12 - g.rate_min) / g.rate_step ≤ ((0 : ℤ) : ℚ) := by
    rw [Int.cast_zero]
    exact div_nonpos_iff.mpr (Or.inr ⟨hnum, hs.le⟩)
  have hle : ⌈(g.rate_max + 1e-12 - g.rate_min) / g.rate_step⌉ ≤ 0 :=
    Int.ceil_le.mpr h0
  have ht : (⌈(g.rate_max + 1e-12 - g.rate_min) / g.rate_step⌉).toNat = 0 := by
    omega
  rw [rates, arange, ht]
  rfl

/-- A build over an empty price axis appends nothing. -/
lemma build_of_prices_nil (g : GridSpec) (t : ScenarioTemplate)
    (h : prices g = []) : build g t = some [] := by
  have hpairs : ((rates g).flatMap fun r =>
      (prices g).map fun p => ((r, p) : ℚ × ℤ)) = [] := by
    rw [h]
    simp
  rw [build, hpairs]
  rfl

/-- A build over an empty rate axis appends nothing. -/
lemma build_of_rates_nil (g : GridSpec) (t : ScenarioTemplate)
    (h : rates g = []) : build g t = some [] := by
  rw [build, h]
  rfl

/-- C7 counterexample: a grid whose `rate_min` exceeds `rate_max` by less
than the `1e-12` arange epsilon still produces a nonempty matrix, refuting
the claim that every inverted range yields an empty one. -/
theorem empty_range_counterexample :
    (GridSpec.mk 250000 250000 5000 (0.04 + 1e-13) 0.04 0.01).rate_max <
      (GridSpec.mk 250000 250000 5000 (0.04 + 1e-13) 0.04 0.01).rate_min ∧
    build (GridSpec.mk 250000 250000 5000 (0.04 + 1e-13) 0.04 0.01)
      ⟨25000, 30, 0.0091, 3120, 0.005, 0, 400⟩ ≠ some [] := by
  constructor
  · show (0.04 : ℚ) < 0.04 + 1e-13
    norm_num
  · have hc : ⌈((0.04 : ℚ) + 1e-12 - (0.04 + 1e-13)) / 0.01⌉ = 1 := by
      rw [Int.ceil_eq_iff]
      constructor <;> norm_num
    have hrates : rates (GridSpec.mk 250000 250000 5000 (0.04 + 1e-13) 0.04
        0.01) = [0.04] := by
      show ((arange (0.04 + 1e-13) (0.04 + 1e-12) 0.01).map
        fun r => np_round r 4) = [0.04]
      rw [arange, hc]
      show [np_round ((0.04 : ℚ) + 1e-13 + (0 : ℕ) * 0.01) 4] = [(0.04 : ℚ)]
      have hval : (0.04 : ℚ) + 1e-13 + (0 : ℕ) * 0.01 = 0.04 + 1e-13 := by
        norm_num
      have hfl : ⌊((0.04 : ℚ) + 1e-13) * 10 ^ 4⌋ = 400 := by
        rw [Int.floor_eq_iff]
        constructor <;> norm_num
      rw [hval, np_round, roundHalfEven, hfl]
      norm_num
    have hpc : ⌈(1 : ℚ) / 5000⌉ = 1 := by
      rw [Int.ceil_eq_iff]
      constructor <;> norm_num
    have hprices : prices (GridSpec.mk 250000 250000 5000 (0.04 + 1e-13) 0.04
        0.01) = [250000] := by
      show arangeInt 250000 (250000 + 1) 5000 = [250000]
      rw [arangeInt]
      norm_num [hpc, List.range_succ]
    have hd := amort_denom_pos ((0.04 : ℚ) / 12) (30 * 12) (by norm_num)
      (by norm_num)
    rw [build, hrates, hprices]
    simp only [List.flatMap_cons, List.map_cons, List.map_nil,
      List.flatMap_nil, List.append_nil, mapOption, monthly_payment,
      if_neg hd.ne']
    intro hcontra
    simp at hcontra

/-- C7 (amended): with positive steps, an inverted price range
(`price_max < price_min`) yields the empty matrix, and an inverted rate
range yields the empty matrix provided the gap is at least the `1e-12`
arange epsilon; a strictly smaller inversion still produces one rate. -/
theorem empty_range_amended (g : GridSpec) (t : ScenarioTemplate)
    (hp : 0 < g.price_step) (hr : 0 < g.rate_step) :
    (g.price_max < g.price_min → build g t = some []) ∧
    (g.rate_max + 1e-12 ≤ g.rate_min → build g t = some []) :=
  ⟨fun h => build_of_prices_nil g t (prices_nil g h hp),
   fun h => build_of_rates_nil g t (rates_nil g h hr)⟩

/-- C7 witness: the spec's 300000-over-250000 inverted price range gives the
empty matrix, as does a rate range inverted by a full step. -/
theorem empty_range_amended_witness :
    build (GridSpec.mk 300000 250000 5000 0.04 0.05 0.01)
      ⟨25000, 30, 0.0091, 3120, 0.005, 0, 400⟩ = some [] ∧
    build (GridSpec.mk 250000 260000 5000 0.05 0.04 0.01)
      ⟨25000, 30, 0.0091, 3120, 0.005, 0, 400⟩ = some [] :=
  ⟨(empty_range_amended (GridSpec.mk 300000 250000 5000 0.04 0.05 0.01)
      ⟨25000, 30, 0.0091, 3120, 0.005, 0, 400⟩ (by norm_num) (by norm_num)).1
      (by norm_num),
   (empty_range_amended (GridSpec.mk 250000 260000 5000 0.05 0.04 0.01)
      ⟨25000, 30, 0.0091, 3120, 0.005, 0, 400⟩ (by norm_num) (by norm_num)).2
      (by norm_num)⟩

/-- Rounding an integer-valued rational changes nothing. -/
lemma roundHalfEven_intCast (z : ℤ) : roundHalfEven ((z : ℚ)) = z := by
  rw [roundHalfEven, Int.floor_intCast]
  norm_num

/-- A rational that is already an exact multiple of `10^-d` is a fixed point
of `np_round · d`. -/
lemma np_round_eq_self (q : ℚ) (z : ℤ) (d : ℕ) (h : q * 10 ^ d = (z : ℚ)) :
    np_round q d = q := by
  rw [np_round, h, roundHalfEven_intCast, ← h]
  exact mul_div_cancel_right₀ q (by positivity)

/-- With a positive rate and nonzero term the payment function succeeds,
returning the line-161 sum in closed form. -/
lemma monthly_payment_eq_some (pp dp r : ℚ) (n : ℕ)
    (tax prem pmir hoa fl : ℚ) (hr : 0 < r) (hn : n ≠ 0) :
    monthly_payment pp dp r n tax prem pmir hoa fl false =
      some ((pp - dp) * (r / 12 * (1 + r / 12) ^ (n * 12)) /
          ((1 + r / 12) ^ (n * 12) - 1) +
        pp * tax / 12 + prem / 12 +
        (if dp < 0.20 * pp then (pp - dp) * pmir / 12 else 0) +
        hoa + fl / 12) := by
  have hd := amort_denom_pos (r / 12) (n * 12) (by positivity) (by omega)
  rw [monthly_payment]
  simp only []
  rw [if_neg hd.ne']

/-- Sequencing a list whose every element succeeds yields the list of
values. -/
lemma mapOption_eq_some_map {α β : Type} (f : α → Option β) (v : α → β)
    (l : List α) (h : ∀ a ∈ l, f a = some (v a)) :
    mapOption f l = some (l.map v) := by
  induction l with
  | nil => rfl
  | cons a as ih =>
    rw [List.map_cons, mapOption, h a (List.mem_cons_self a as),
      ih fun b hb => h b (List.mem_cons_of_mem a hb)]
    rfl

/-- When every rate of the grid is positive and the term is nonzero, the
build succeeds and each cell holds the closed-form payment for its
(rate, price) pair. -/
lemma build_eq_some_of_pos (g : GridSpec) (t : ScenarioTemplate)
    (hrpos : ∀ r ∈ rates g, 0 < r) (hn : t.term_years ≠ 0) :
    build g t = some (((rates g).flatMap fun r =>
        (prices g).map fun p => ((r, p) : ℚ × ℤ)).map fun rp =>
      ⟨rp.1, rp.2, ((rp.2 : ℚ) - t.down_payment) *
          (rp.1 / 12 * (1 + rp.1 / 12) ^ (t.term_years * 12)) /
          ((1 + rp.1 / 12) ^ (t.term_years * 12) - 1) +
        (rp.2 : ℚ) * t.effective_tax_rate / 12 + t.annual_premium / 12 +
        (if t.down_payment < 0.20 * (rp.2 : ℚ)
          then ((rp.2 : ℚ) - t.down_payment) * t.pmi_annual_rate / 12
          else 0) +
        t.hoa_monthly + t.flood_annual_premium / 12⟩) := by
  apply mapOption_eq_some_map
  intro rp hrp
  obtain ⟨r, hr, hrest⟩ := List.mem_flatMap.mp hrp
  obtain ⟨p, hp, rfl⟩ := List.mem_map.mp hrest
  rw [monthly_payment_eq_some _ _ _ _ _ _ _ _ _ (hrpos r hr) hn]
  rfl

/-- The rate axis of the §8 test grid evaluates to exactly [0.04, 0.05]:
the epsilon pushes the count to 2 and the 4-decimal rounding fixes both
values. -/
lemma rates_eval_main :
    rates (GridSpec.mk 250000 260000 5000 0.04 0.05 0.01) = [0.04, 0.05] := by
  have hc : ⌈((0.05 : ℚ) + 1e-12 - 0.04) / 0.01⌉ = 2 := by
    rw [Int.ceil_eq_iff]
    constructor <;> norm_num
  have e1 : np_round ((1 : ℚ) / 25) 4 = 1 / 25 :=
    np_round_eq_self _ 400 _ (by norm_num)
  have e2 : np_round ((1 : ℚ) / 20) 4 = 1 / 20 :=
    np_round_eq_self _ 500 _ (by norm_num)
  show ((arange 0.04 (0.05 + 1e-12) 0.01).map fun r => np_round r 4) =
    [0.04, 0.05]
  rw [arange, hc]
  show [np_round ((0.04 : ℚ) + ((0 : ℕ) : ℚ) * 0.01) 4,
    np_round ((0.04 : ℚ) + ((1 : ℕ) : ℚ) * 0.01) 4] = [(0.04 : ℚ), 0.05]
  norm_num [e1, e2]

/-- The price axis of the §8 test grid evaluates to exactly
[250000, 255000, 260000]. -/
lemma prices_eval_main :
    prices (GridSpec.mk 250000 260000 5000 0.04 0.05 0.01) =
      [250000, 255000, 260000] := by
  have hc : ⌈((260000 + 1 - 250000 : ℤ) : ℚ) / ((5000 : ℤ) : ℚ)⌉ = 3 := by
    rw [Int.ceil_eq_iff]
    constructor <;> norm_num
  show arangeInt 250000 (260000 + 1) 5000 = [250000, 255000, 260000]
  rw [arangeInt, hc]
  show [(250000 : ℤ) + ((0 : ℕ) : ℤ) * 5000, 250000 + ((1 : ℕ) : ℤ) * 5000,
    250000 + ((2 : ℕ) : ℤ) * 5000] = [250000, 255000, 260000]
  norm_num

/-- C3: over GridSpec(250000, 260000, 5000; 0.04, 0.05, 0.01), for any
template with a positive term, `build` produces exactly 3 x 2 = 6 entries
whose key list is exactly the six (rate, price) pairs, with no two entries
sharing a key. -/
theorem grid_completeness (t : ScenarioTemplate) (ht : 0 < t.term_years) :
    ∃ m : PaymentMatrix,
      build (GridSpec.mk 250000 260000 5000 0.04 0.05 0.01) t = some m ∧
      m.length = 6 ∧
      m.map GridEntry.key =
        [((0.04 : ℚ), (250000 : ℤ)), (0.04, 255000), (0.04, 260000),
         (0.05, 250000), (0.05, 255000), (0.05, 260000)] ∧
      (m.map GridEntry.key).Nodup := by
  have hrpos : ∀ r ∈ rates (GridSpec.mk 250000 260000 5000 0.04 0.05 0.01),
      (0 : ℚ) < r := by
    rw [rates_eval_main]
    intro r hr
    simp only [List.mem_cons, List.not_mem_nil, or_false] at hr
    rcases hr with rfl | rfl <;> norm_num
  have hb := build_eq_some_of_pos
    (GridSpec.mk 250000 260000 5000 0.04 0.05 0.01) t hrpos (by omega)
  rw [rates_eval_main, prices_eval_main] at hb
  refine ⟨_, hb, ?_, ?_, ?_⟩
  · simp
  · simp [GridEntry.key]
  · simp only [List.map_map]
    simp only [Function.comp_def, GridEntry.key]
    simp only [List.flatMap_cons, List.flatMap_nil, List.map_cons,
      List.map_nil, List.append_nil, List.cons_append, List.nil_append]
    norm_num [List.nodup_cons, Prod.ext_iff]

/-- C3 witness: the build succeeds with the spec's §8 template (term 30,
down payment 25000) and yields the six keyed entries. -/
theorem grid_completeness_witness :
    (0 : ℕ) < 30 ∧
    ∃ m : PaymentMatrix,
      build (GridSpec.mk 250000 260000 5000 0.04 0.05 0.01)
        ⟨25000, 30, 0.0091, 3120, 0.005, 0, 400⟩ = some m ∧
      m.length = 6 ∧
      m.map GridEntry.key =
        [((0.04 : ℚ), (250000 : ℤ)), (0.04, 255000), (0.04, 260000),
         (0.05, 250000), (0.05, 255000), (0.05, 260000)] ∧
      (m.map GridEntry.key).Nodup :=
  ⟨by norm_num,
   grid_completeness ⟨25000, 30, 0.0091, 3120, 0.005, 0, 400⟩ (by norm_num)⟩

/-- C6: with a positive rate step dividing the span (`rate_max - rate_min =
m * rate_step`) and a `rate_max` that is an exact multiple of `10^-4`, the
`1e-12` epsilon added to the arange upper bound makes the nominal maximum a
member of the rate axis, and every generated rate is an exact multiple of
`10^-4` (the 4-decimal rounding). -/
theorem rate_axis_epsilon (g : GridSpec) (hs : 0 < g.rate_step) (m : ℕ)
    (hm : g.rate_max - g.rate_min = (m : ℚ) * g.rate_step)
    (hz : ∃ z : ℤ, g.rate_max * 10 ^ 4 = (z : ℚ)) :
    g.rate_max ∈ rates g ∧
    ∀ r ∈ rates g, ∃ z : ℤ, r = (z : ℚ) / 10 ^ 4 := by
  constructor
  · obtain ⟨z, hz⟩ := hz
    have hmax : g.rate_min + (m : ℚ) * g.rate_step = g.rate_max := by linarith
    have hcount : (m : ℤ) <
        ⌈(g.rate_max + 1e-12 - g.rate_min) / g.rate_step⌉ := by
      rw [Int.lt_ceil]
      push_cast
      rw [lt_div_iff₀ hs]
      linarith [hm]
    have hmem : g.rate_min + (m : ℚ) * g.rate_step ∈
        arange g.rate_min (g.rate_max + 1e-12) g.rate_step := by
      rw [arange]
      exact List.mem_map.mpr ⟨m, List.mem_range.mpr (by omega), rfl⟩
    rw [rates]
    refine List.mem_map.mpr ⟨g.rate_min + (m : ℚ) * g.rate_step, hmem, ?_⟩
    rw [hmax]
    exact np_round_eq_self _ z _ hz
  · intro r hr
    rw [rates] at hr
    obtain ⟨q, hq, rfl⟩ := List.mem_map.mp hr
    exact ⟨roundHalfEven (q * 10 ^ 4), rfl⟩

/-- C6 witness: on the 0.04-0.05 axis with step 0.01 the nominal maximum
0.05 is generated despite the fractional upper bound. -/
theorem rate_axis_epsilon_witness :
    (0 : ℚ) < 0.01 ∧ (0.05 : ℚ) - 0.04 = ((1 : ℕ) : ℚ) * 0.01 ∧
    (0.05 : ℚ) ∈ rates (GridSpec.mk 250000 260000 5000 0.04 0.05 0.01) :=
  ⟨by norm_num, by norm_num,
   (rate_axis_epsilon (GridSpec.mk 250000 260000 5000 0.04 0.05 0.01)
     (by norm_num) 1 (by norm_num) ⟨500, by norm_num⟩).1⟩

/-- Strict monotonicity of the annuity factor `i(1+i)^n / ((1+i)^n - 1)` in
the periodic rate, via the geometric-sum identity
`(1+i)^n - 1 = (∑ (1+i)^k) * i`. -/
lemma annuity_factor_lt (n : ℕ) (hn : n ≠ 0) (i1 i2 : ℚ)
    (h1 : 0 < i1) (h12 : i1 < i2) :
    i1 * (1 + i1) ^ n / ((1 + i1) ^ n - 1) <
      i2 * (1 + i2) ^ n / ((1 + i2) ^ n - 1) := by
  have h2 : 0 < i2 := h1.trans h12
  have hx1 : (0 : ℚ) < 1 + i1 := by linarith
  have hx2 : (0 : ℚ) < 1 + i2 := by linarith
  set S1 := ∑ k ∈ Finset.range n, (1 + i1) ^ k with hS1
  set S2 := ∑ k ∈ Finset.range n, (1 + i2) ^ k with hS2
  have hS1pos : 0 < S1 :=
    Finset.sum_pos (fun k _ => pow_pos hx1 k) (Finset.nonempty_range_iff.mpr hn)
  have hS2pos : 0 < S2 :=
    Finset.sum_pos (fun k _ => pow_pos hx2 k) (Finset.nonempty_range_iff.mpr hn)
  have hD1 : (1 + i1) ^ n - 1 = S1 * i1 := by
    have h := geom_sum_mul (1 + i1) n
    rw [add_sub_cancel_left] at h
    exact h.symm
  have hD2 : (1 + i2) ^ n - 1 = S2 * i2 := by
    have h := geom_sum_mul (1 + i2) n
    rw [add_sub_cancel_left] at h
    exact h.symm
  have key : (1 + i1) ^ n * S2 < (1 + i2) ^ n * S1 := by
    rw [hS1, hS2, Finset.mul_sum, Finset.mul_sum]
    apply Finset.sum_lt_sum_of_nonempty (Finset.nonempty_range_iff.mpr hn)
    intro k hk
    have hkn : k < n := Finset.mem_range.mp hk
    have hsplit1 : (1 + i1) ^ n = (1 + i1) ^ k * (1 + i1) ^ (n - k) := by
      rw [← pow_add]
      congr 1
      omega
    have hsplit2 : (1 + i2) ^ n = (1 + i2) ^ k * (1 + i2) ^ (n - k) := by
      rw [← pow_add]
      congr 1
      omega
    rw [hsplit1, hsplit2]
    have hlt : (1 + i1) ^ (n - k) < (1 + i2) ^ (n - k) :=
      pow_lt_pow_left₀ (by linarith) (by linarith) (by omega)
    calc (1 + i1) ^ k * (1 + i1) ^ (n - k) * (1 + i2) ^ k
        < (1 + i1) ^ k * (1 + i2) ^ (n - k) * (1 + i2) ^ k :=
          mul_lt_mul_of_pos_right
            (mul_lt_mul_of_pos_left hlt (pow_pos hx1 k)) (pow_pos hx2 k)
      _ = (1 + i2) ^ k * (1 + i2) ^ (n - k) * (1 + i1) ^ k := by ring
  rw [hD1, hD2, div_lt_div_iff₀ (mul_pos hS1pos h1) (mul_pos hS2pos h2)]
  have hpos : (0 : ℚ) < i1 * i2 := mul_pos h1 h2
  calc i1 * (1 + i1) ^ n * (S2 * i2)
      = i1 * i2 * ((1 + i1) ^ n * S2) := by ring
    _ < i1 * i2 * ((1 + i2) ^ n * S1) := mul_lt_mul_of_pos_left key hpos
    _ = i2 * (1 + i2) ^ n * (S1 * i1) := by ring

/-- C8: holding every other field fixed (positive rate and term, down
payment below the smaller price, nonnegative tax and PMI rates), a strictly
larger purchase price gives a strictly larger computed payment. -/
theorem payment_mono_price (s : ScenarioInput) (p1 p2 : ℚ) (hp : p1 < p2)
    (hr : 0 < s.note_rate) (ht : 0 < s.term_years)
    (hdp : s.down_payment < p1) (htax : 0 ≤ s.effective_tax_rate)
    (hpmi : 0 ≤ s.pmi_annual_rate) :
    ∃ v1 v2 : ℚ,
      compute { s with purchase_price := p1 } = some v1 ∧
      compute { s with purchase_price := p2 } = some v2 ∧
      v1 < v2 := by
  have h1 := monthly_payment_eq_some p1 s.down_payment s.note_rate
    s.term_years s.effective_tax_rate s.annual_premium s.pmi_annual_rate
    s.hoa_monthly s.flood_annual_premium hr (by omega)
  have h2 := monthly_payment_eq_some p2 s.down_payment s.note_rate
    s.term_years s.effective_tax_rate s.annual_premium s.pmi_annual_rate
    s.hoa_monthly s.flood_annual_premium hr (by omega)
  refine ⟨_, _, h1, h2, ?_⟩
  have hi : (0 : ℚ) < s.note_rate / 12 := by positivity
  have hA : (0 : ℚ) <
      s.note_rate / 12 * (1 + s.note_rate / 12) ^ (s.term_years * 12) :=
    mul_pos hi (pow_pos (by linarith) _)
  have hD := amort_denom_pos (s.note_rate / 12) (s.term_years * 12) hi
    (by omega)
  have hnum : (p1 - s.down_payment) *
        (s.note_rate / 12 * (1 + s.note_rate / 12) ^ (s.term_years * 12)) <
      (p2 - s.down_payment) *
        (s.note_rate / 12 * (1 + s.note_rate / 12) ^ (s.term_years * 12)) :=
    mul_lt_mul_of_pos_right (by linarith) hA
  have hPI : (p1 - s.down_payment) *
        (s.note_rate / 12 * (1 + s.note_rate / 12) ^ (s.term_years * 12)) /
        ((1 + s.note_rate / 12) ^ (s.term_years * 12) - 1) <
      (p2 - s.down_payment) *
        (s.note_rate / 12 * (1 + s.note_rate / 12) ^ (s.term_years * 12)) /
        ((1 + s.note_rate / 12) ^ (s.term_years * 12) - 1) :=
    (div_lt_div_iff_of_pos_right hD).mpr hnum
  have htax2 : p1 * s.effective_tax_rate / 12 ≤
      p2 * s.effective_tax_rate / 12 := by
    have := mul_le_mul_of_nonneg_right hp.le htax
    linarith
  have hpmi2 : (if s.down_payment < 0.20 * p1
        then (p1 - s.down_payment) * s.pmi_annual_rate / 12 else 0) ≤
      (if s.down_payment < 0.20 * p2
        then (p2 - s.down_payment) * s.pmi_annual_rate / 12 else 0) := by
    by_cases c1 : s.down_payment < 0.20 * p1
    · have c2 : s.down_payment < 0.20 * p2 := by linarith
      rw [if_pos c1, if_pos c2]
      have := mul_le_mul_of_nonneg_right
        (by linarith : p1 - s.down_payment ≤ p2 - s.down_payment) hpmi
      linarith
    · rw [if_neg c1]
      split_ifs with c2
      · have := mul_nonneg (by linarith : (0 : ℚ) ≤ p2 - s.down_payment) hpmi
        linarith
      · exact le_refl 0
  linarith [hPI, htax2, hpmi2]

/-- C8 witness: raising the price from 250000 to 255000 in the §8 scenario
strictly raises the payment. -/
theorem payment_mono_price_witness :
    (250000 : ℚ) < 255000 ∧ (0 : ℚ) < 0.04 ∧ (0 : ℕ) < 30 ∧
    (25000 : ℚ) < 250000 ∧ (0 : ℚ) ≤ 0.0091 ∧ (0 : ℚ) ≤ 0.005 ∧
    ∃ v1 v2 : ℚ,
      compute ⟨250000, 25000, 0.04, 30, 0.0091, 3120, 0.005, 0, 400⟩ =
        some v1 ∧
      compute ⟨255000, 25000, 0.04, 30, 0.0091, 3120, 0.005, 0, 400⟩ =
        some v2 ∧
      v1 < v2 :=
  ⟨by norm_num, by norm_num, by norm_num, by norm_num, by norm_num,
   by norm_num,
   payment_mono_price ⟨0, 25000, 0.04, 30, 0.0091, 3120, 0.005, 0, 400⟩
     250000 255000 (by norm_num) (by norm_num) (by norm_num) (by norm_num)
     (by norm_num) (by norm_num)⟩

/-- C9: holding every other field fixed, with both rates positive and a
positive principal, a strictly larger note rate gives a strictly larger P&I
component and hence a strictly larger computed payment (no escrow component
depends on the rate). -/
theorem payment_mono_rate (s : ScenarioInput) (r1 r2 : ℚ) (h1 : 0 < r1)
    (h12 : r1 < r2) (ht : 0 < s.term_years)
    (hdp : s.down_payment < s.purchase_price) :
    P_and_I { s with note_rate := r1 } < P_and_I { s with note_rate := r2 } ∧
    ∃ v1 v2 : ℚ,
      compute { s with note_rate := r1 } = some v1 ∧
      compute { s with note_rate := r2 } = some v2 ∧
      v1 < v2 := by
  have hfac := annuity_factor_lt (s.term_years * 12) (by omega) (r1 / 12)
    (r2 / 12) (by positivity) (by linarith)
  have hL : (0 : ℚ) < s.purchase_price - s.down_payment := by linarith
  have key := mul_lt_mul_of_pos_left hfac hL
  rw [← mul_div_assoc, ← mul_div_assoc] at key
  constructor
  · exact key
  · have hm1 := monthly_payment_eq_some s.purchase_price s.down_payment r1
      s.term_years s.effective_tax_rate s.annual_premium s.pmi_annual_rate
      s.hoa_monthly s.flood_annual_premium h1 (by omega)
    have hm2 := monthly_payment_eq_some s.purchase_price s.down_payment r2
      s.term_years s.effective_tax_rate s.annual_premium s.pmi_annual_rate
      s.hoa_monthly s.flood_annual_premium (by linarith) (by omega)
    refine ⟨_, _, hm1, hm2, ?_⟩
    linarith [key]

/-- C9 witness: raising the rate from 0.04 to 0.05 in the §8 scenario
strictly raises the P&I component and the payment. -/
theorem payment_mono_rate_witness :
    (0 : ℚ) < 0.04 ∧ (0.04 : ℚ) < 0.05 ∧ (0 : ℕ) < 30 ∧
    (25000 : ℚ) < 250000 ∧
    (P_and_I ⟨250000, 25000, 0.04, 30, 0.0091, 3120, 0.005, 0, 400⟩ <
      P_and_I ⟨250000, 25000, 0.05, 30, 0.0091, 3120, 0.005, 0, 400⟩ ∧
    ∃ v1 v2 : ℚ,
      compute ⟨250000, 25000, 0.04, 30, 0.0091, 3120, 0.005, 0, 400⟩ =
        some v1 ∧
      compute ⟨250000, 25000, 0.05, 30, 0.0091, 3120, 0.005, 0, 400⟩ =
        some v2 ∧
      v1 < v2) :=
  ⟨by norm_num, by norm_num, by norm_num, by norm_num,
   payment_mono_rate ⟨250000, 25000, 0, 30, 0.0091, 3120, 0.005, 0, 400⟩
     0.04 0.05 (by norm_num) (by norm_num) (by norm_num) (by norm_num)⟩
